import Mathlib

/-!
Verification development for the PeakForm weekly analysis pipeline.

Shallow embedding of the Python source:
  * `src/peakform/agent.py` — week-window resolution, coverage validation,
    and the `run_full` orchestrator;
  * `src/peakform/parsers/macrofactor.py` — date normalization, generic
    sheet loading, and `get_current_targets`;
  * `src/peakform/persistence.py` — upload saving and re-running from
    saved bytes.

Python `date` objects are represented both as proleptic-Gregorian ordinals
(`Int`, day 1 = 0001-01-01, which is a Monday, matching
`date(1,1,1).weekday() == 0`) and, where string parsing is concerned, as
year/month/day triples (`PyDate`) with `PyDate.toOrdinal` the standard
`date.toordinal` computation. `pd.Timestamp`s of normalized (midnight)
dates are represented by their ordinals.

Python floats as they appear in numeric-coerced DataFrame columns are
represented by `PyFloat` (a rational or NaN); NaN is truthy in Python and
all its order comparisons are false, which the model mirrors.

The analyzer modules (`peakform.analyzers.*`), the Garmin parser and
`peakform.config` are not part of the sources at hand; per the spec they
are deterministic pure functions of the loaded tables and the window, and
they are modelled as abstract function parameters (`Pipeline`) threaded
exactly as `run_full` threads them.
-/

namespace PeakForm

/-- Raw file contents: a sequence of bytes. -/
abbrev Bytes := List Nat

/-- A Python float as found in a numeric-coerced DataFrame column:
either NaN or an exact numeric value. -/
inductive PyFloat where
  | nan : PyFloat
  | val (q : Rat) : PyFloat
  deriving Repr, DecidableEq

/-- Python truthiness of a float: NaN is truthy, 0.0 is falsy, any other
value is truthy. -/
def PyFloat.truthy : PyFloat → Bool
  | .nan => true
  | .val q => q != 0

/-- Python `f > c` for a float `f` and a rational constant `c`:
false whenever `f` is NaN. -/
def PyFloat.gtConst : PyFloat → Rat → Bool
  | .nan, _ => false
  | .val q, c => c < q

/-- A Python `datetime.date`: year / month / day triple. -/
structure PyDate where
  year : Nat
  month : Nat
  day : Nat
  deriving Repr, DecidableEq

/-- Gregorian leap-year test, as in `calendar.isleap`. -/
def isLeap (y : Nat) : Bool :=
  y % 4 == 0 && (y % 100 != 0 || y % 400 == 0)

/-- Number of days in a month of a given year. -/
def daysInMonth (y m : Nat) : Nat :=
  if m == 2 then (if isLeap y then 29 else 28)
  else if m == 4 || m == 6 || m == 9 || m == 11 then 30
  else 31

/-- Days in the year strictly before month `m` (1-based). -/
def daysBeforeMonth (y m : Nat) : Nat :=
  let base :=
    match m with
    | 1 => 0 | 2 => 31 | 3 => 59 | 4 => 90 | 5 => 120 | 6 => 151
    | 7 => 181 | 8 => 212 | 9 => 243 | 10 => 273 | 11 => 304 | _ => 334
  if 2 < m && isLeap y then base + 1 else base

/-- Python `date.toordinal()`: day 1 is 0001-01-01. -/
def PyDate.toOrdinal (d : PyDate) : Int :=
  let y := d.year - 1
  (365 * y + y / 4 - y / 100 + y / 400 + daysBeforeMonth d.year d.month + d.day : Nat)

/-- The `datetime.date` constructor's validity check: `date(y, m, d)`
raises `ValueError` unless `MINYEAR ≤ y ≤ MAXYEAR`, `1 ≤ m ≤ 12` and
`1 ≤ d ≤ daysInMonth y m`. Returns `none` where Python raises. -/
def mkDate (y m d : Nat) : Option PyDate :=
  if 1 ≤ y ∧ y ≤ 9999 ∧ 1 ≤ m ∧ m ≤ 12 ∧ 1 ≤ d ∧ d ≤ daysInMonth y m then
    some ⟨y, m, d⟩
  else
    none

/-- ASCII decimal digit test. -/
def isDigitCh (c : Char) : Bool := '0' ≤ c && c ≤ '9'

/-- Numeric value of a list of decimal digit characters. -/
def digitsToNat (cs : List Char) : Nat :=
  cs.foldl (fun acc c => 10 * acc + (c.toNat - '0'.toNat)) 0

/-- Python `date.fromisoformat`: accepts exactly `YYYY-MM-DD` with a valid
calendar date (the strict format documented by the code's own error
message), returning `none` where Python raises `ValueError`. -/
def fromisoformat (s : String) : Option PyDate :=
  match s.toList with
  | [y1, y2, y3, y4, '-', m1, m2, '-', d1, d2] =>
      if isDigitCh y1 && isDigitCh y2 && isDigitCh y3 && isDigitCh y4 &&
         isDigitCh m1 && isDigitCh m2 && isDigitCh d1 && isDigitCh d2 then
        mkDate (digitsToNat [y1, y2, y3, y4]) (digitsToNat [m1, m2])
          (digitsToNat [d1, d2])
      else none
  | _ => none

-- ---------------------------------------------------------------------------
-- agent.py — week boundary helpers (dates as ordinals)
-- ---------------------------------------------------------------------------

/-- Python `date.weekday()`: 0 = Monday. Ordinal 1 (0001-01-01) is a Monday. -/
def weekday (o : Int) : Int := (o - 1) % 7

/-- Function `_week_bounds_for_date`: the Mon–Sun week containing the given date. -/
def weekBoundsForDate (o : Int) : Int × Int :=
  let monday := o - weekday o
  (monday, monday + 6)

/-- Function `_current_week_bounds`: Mon–Sun bounds of the week containing today. -/
def currentWeekBounds (today : Int) : Int × Int :=
  let monday := today - weekday today
  (monday, monday + 6)

/-- Function `_parse_week_arg`: `None` or the empty string (both falsy under
`if not week_str`) default to the current week; otherwise the string is
parsed with `date.fromisoformat` and a `ValueError` ("Invalid --week
value ...") is raised when it does not parse. -/
def parseWeekArg (weekStr : Option String) (today : Int) :
    Except String (Int × Int) :=
  match weekStr with
  | none => .ok (currentWeekBounds today)
  | some s =>
      if s = "" then .ok (currentWeekBounds today)
      else
        match fromisoformat s with
        | some d => .ok (weekBoundsForDate d.toOrdinal)
        | none =>
            .error ("Invalid --week value '" ++ s ++
              "'. Expected ISO date format: YYYY-MM-DD")

-- ---------------------------------------------------------------------------
-- C1
-- ---------------------------------------------------------------------------

/-- C1: for every reference date — explicit (`_week_bounds_for_date`) or
today (`_current_week_bounds`) — the resolved window `(start, end)` has
`start` on a Monday, `end = start + 6` days, and the reference date lies
within `[start, end]`. -/
theorem week_bounds_monday_span :
    ∀ o : Int,
      (weekday (weekBoundsForDate o).1 = 0 ∧
       (weekBoundsForDate o).2 = (weekBoundsForDate o).1 + 6 ∧
       (weekBoundsForDate o).1 ≤ o ∧ o ≤ (weekBoundsForDate o).2) ∧
      (weekday (currentWeekBounds o).1 = 0 ∧
       (currentWeekBounds o).2 = (currentWeekBounds o).1 + 6 ∧
       (currentWeekBounds o).1 ≤ o ∧ o ≤ (currentWeekBounds o).2) := by
  intro o
  have hwd : 0 ≤ (o - 1) % 7 ∧ (o - 1) % 7 < 7 := by
    constructor
    · exact Int.emod_nonneg _ (by norm_num)
    · exact Int.emod_lt_of_pos _ (by norm_num)
  have hmon : ((o - (o - 1) % 7) - 1) % 7 = 0 := by
    have : (o - (o - 1) % 7) - 1 = (o - 1) - (o - 1) % 7 := by ring
    rw [this, Int.sub_emod, Int.emod_emod_of_dvd]
    · simp
    · exact dvd_refl 7
  refine ⟨⟨hmon, rfl, ?_, ?_⟩, ⟨hmon, rfl, ?_, ?_⟩⟩ <;>
    simp only [weekBoundsForDate, currentWeekBounds, weekday] <;> omega

-- ---------------------------------------------------------------------------
-- C2
-- ---------------------------------------------------------------------------

/-- C2 counterexample: the empty string does not parse as a calendar date,
yet `_parse_week_arg` raises no error for it — `if not week_str` treats it
like an absent argument and silently resolves the current week
(739257 is the ordinal of 2025-01-06, a Monday). -/
theorem parse_week_arg_empty_no_error :
    fromisoformat ("") = none ∧
    parseWeekArg (some ("")) 739257 = .ok (739257, 739263) := by
  constructor <;> rfl

/-- C2 (amended): for every non-empty explicit week string, window
resolution raises the invalid-week error exactly when the string does not
parse as a calendar date; strings that parse raise no error. (The empty
string instead falls through to the current-week default.) -/
theorem parse_week_arg_error_iff (s : String) (today : Int) (hs : s ≠ "") :
    (∃ e, parseWeekArg (some s) today = .error e) ↔ fromisoformat s = none := by
  cases h : fromisoformat s with
  | none => simp [parseWeekArg, if_neg hs, h]
  | some d => simp [parseWeekArg, if_neg hs, h]

/-- C2 witness: the theorem applied to a concrete unparsable string. -/
theorem parse_week_arg_error_iff_witness :
    ("13/1/2024" : String) ≠ "" ∧
    (∃ e, parseWeekArg (some ("13/1/2024")) 0 = .error e) :=
  ⟨by decide, (parse_week_arg_error_iff "13/1/2024" 0 (by decide)).mpr (by decide)⟩

-- ---------------------------------------------------------------------------
-- macrofactor.py — cells, date normalization, generic sheet loading
-- ---------------------------------------------------------------------------

/-- A raw spreadsheet cell as surfaced by `ws.values` (openpyxl):
empty cell, numeric value, string, native date, or native datetime
(`tod` is the time-of-day component a datetime carries). -/
inductive Cell where
  | blank
  | num (q : Rat)
  | str (s : String)
  | dateVal (d : PyDate)
  | datetimeVal (d : PyDate) (tod : Nat)
  deriving Repr, DecidableEq

/-- Python whitespace stripped by `str.strip()`. -/
def isSpaceCh (c : Char) : Bool :=
  c == ' ' || c == '\t' || c == '\n' || c == '\r' ||
  c == Char.ofNat 11 || c == Char.ofNat 12

/-- Python `str.strip()` on a character list. -/
def pyStrip (cs : List Char) : List Char :=
  ((cs.dropWhile isSpaceCh).reverse.dropWhile isSpaceCh).reverse

/-- Match of the anchored regular expression
`(\d 1..2)/(\d 1..2)/(\d 4)` from `_MDYYYY_RE`: returns the three digit
groups (month, day, year) as numbers, or `none` when the shape fails. -/
def mdyyyyShape (cs : List Char) : Option (Nat × Nat × Nat) :=
  let g1 := cs.takeWhile isDigitCh
  let r1 := cs.dropWhile isDigitCh
  if 1 ≤ g1.length ∧ g1.length ≤ 2 then
    match r1 with
    | '/' :: r2 =>
        let g2 := r2.takeWhile isDigitCh
        let r3 := r2.dropWhile isDigitCh
        if 1 ≤ g2.length ∧ g2.length ≤ 2 then
          match r3 with
          | '/' :: g3 =>
              if g3.length = 4 ∧ g3.all isDigitCh then
                some (digitsToNat g1, digitsToNat g2, digitsToNat g3)
              else none
          | _ => none
        else none
    | _ => none
  else none

/-- Function `_normalize_date`: converts a date cell to a Python date.
Native datetimes are truncated to their date, native dates pass through,
strings are matched against M/D/YYYY (where `date(year, month, day)` can
raise an uncaught `ValueError`, modelled as `.error ()`) and otherwise
fall back to `date.fromisoformat` on the first 10 stripped characters;
everything else yields `None` (the row is later dropped). -/
def normalizeDate : Cell → Except Unit (Option PyDate)
  | .blank => .ok none
  | .datetimeVal d _ => .ok (some d)
  | .dateVal d => .ok (some d)
  | .str s =>
      let t := pyStrip s.toList
      match mdyyyyShape t with
      | some (m, dd, y) =>
          match mkDate y m dd with
          | some d => .ok (some d)
          | none => .error ()
      | none => .ok (fromisoformat (String.mk (t.take 10)))
  | .num _ => .ok none

/-- Row padding in `_load_sheet_as_df`: `(r + [None] * n)[:n]`. -/
def padRow (n : Nat) (r : List Cell) : List Cell :=
  (r ++ List.replicate n Cell.blank).take n

/-- One normalized row: the (possibly absent) date of the first padded
cell plus the remaining cells. Errors propagate (the `.apply` raises). -/
def normalizeRows (n : Nat) :
    List (List Cell) → Except Unit (List (Option PyDate × List Cell))
  | [] => .ok []
  | r :: rs =>
      let p := padRow n r
      match normalizeDate (p.headD Cell.blank) with
      | .error e => .error e
      | .ok od =>
          match normalizeRows n rs with
          | .error e => .error e
          | .ok rest => .ok ((od, p.drop 1) :: rest)

/-- Ascending-by-date ordering used by `sort_values("date")`. -/
def rowLe (a b : PyDate × List Cell) : Prop :=
  a.1.toOrdinal ≤ b.1.toOrdinal

instance : DecidableRel rowLe :=
  fun a b => Int.decLe a.1.toOrdinal b.1.toOrdinal

/-- Function `_load_sheet_as_df`: header row fixes the column count, each
later row is padded/truncated to it, the first column is date-normalized,
rows whose date fails to normalize are dropped (`dropna`), and the result
is sorted ascending by date. An empty header row makes `headers[0]` raise
(modelled `.error ()`); a raising `_normalize_date` aborts the load. -/
def loadSheetAsDf (data : List (List Cell)) :
    Except Unit (List (PyDate × List Cell)) :=
  match data with
  | [] => .ok []
  | hdr :: rows =>
      if hdr.length = 0 then .error ()
      else
        match normalizeRows hdr.length rows with
        | .error e => .error e
        | .ok prs =>
            .ok (List.insertionSort rowLe
              (prs.filterMap (fun pr => pr.1.map (fun d => (d, pr.2)))))

/-- Helper: the raw row kept by the loader, when its date normalizes. -/
def keptRow (n : Nat) (r : List Cell) : Option (PyDate × List Cell) :=
  match normalizeDate ((padRow n r).headD Cell.blank) with
  | .ok (some d) => some (d, (padRow n r).drop 1)
  | _ => none

lemma normalizeRows_ok_filterMap {n : Nat} :
    ∀ {rows : List (List Cell)} {prs : List (Option PyDate × List Cell)},
      normalizeRows n rows = .ok prs →
      prs.filterMap (fun pr => pr.1.map (fun d => (d, pr.2))) =
        rows.filterMap (keptRow n) := by
  intro rows
  induction rows with
  | nil => intro prs h; cases h; rfl
  | cons r rs ih =>
      intro prs h
      simp only [normalizeRows] at h
      cases hnd : normalizeDate ((padRow n r).headD Cell.blank) with
      | error e => rw [hnd] at h; simp at h
      | ok od =>
          rw [hnd] at h
          cases hrest : normalizeRows n rs with
          | error e => rw [hrest] at h; simp at h
          | ok rest =>
              rw [hrest] at h
              simp only [Except.ok.injEq] at h
              subst h
              have hr := ih hrest
              cases od with
              | none =>
                  simp only [List.filterMap_cons, keptRow, hnd, Option.map]
                  exact hr
              | some d =>
                  simp only [List.filterMap_cons, keptRow, hnd, Option.map]
                  exact congrArg _ hr

lemma normalizeRows_error_of_mem {n : Nat} :
    ∀ {rows : List (List Cell)} (r : List Cell), r ∈ rows →
      normalizeDate ((padRow n r).headD Cell.blank) = .error () →
      normalizeRows n rows = .error () := by
  intro rows
  induction rows with
  | nil => intro r hr; cases hr
  | cons r0 rs ih =>
      intro r hr herr
      simp only [normalizeRows]
      rcases List.mem_cons.mp hr with h | h
      · subst h; rw [herr]
      · cases hnd : normalizeDate ((padRow n r0).headD Cell.blank) with
        | error e => cases e; rfl
        | ok od => rw [ih r h herr]

instance : IsTotal (PyDate × List Cell) rowLe :=
  ⟨fun a b => Int.le_total a.1.toOrdinal b.1.toOrdinal⟩

instance : IsTrans (PyDate × List Cell) rowLe :=
  ⟨fun _ _ _ hab hbc => le_trans hab hbc⟩

lemma load_sheet_ok_perm {hdr : List Cell} {rows : List (List Cell)}
    {out : List (PyDate × List Cell)}
    (h : loadSheetAsDf (hdr :: rows) = .ok out) :
    out.Perm (rows.filterMap (keptRow hdr.length)) ∧
    List.Sorted rowLe out := by
  simp only [loadSheetAsDf] at h
  by_cases h0 : hdr.length = 0
  · rw [if_pos h0] at h; simp at h
  · rw [if_neg h0] at h
    cases hnr : normalizeRows hdr.length rows with
    | error e => rw [hnr] at h; simp at h
    | ok prs =>
        rw [hnr] at h
        simp only [Except.ok.injEq] at h
        subst h
        have heq := normalizeRows_ok_filterMap hnr
        rw [heq]
        exact ⟨List.perm_insertionSort _ _, List.sorted_insertionSort _ _⟩

-- ---------------------------------------------------------------------------
-- C3
-- ---------------------------------------------------------------------------

/-- C3 counterexample: the ISO string "2024-01-15" is neither a native
date value nor an M/D/YYYY string, yet `_normalize_date` succeeds on it
through the documented-nowhere ISO fallback. -/
theorem normalize_date_iso_fallback_cex :
    mdyyyyShape (pyStrip ("2024-01-15").toList) = none ∧
    normalizeDate (Cell.str ("2024-01-15")) =
      .ok (some ⟨2024, 1, 15⟩) := by
  exact ⟨rfl, rfl⟩

/-- C3 (amended): date normalization succeeds exactly for native
date/datetime cells, M/D/YYYY strings denoting valid calendar dates, and
strings whose first 10 stripped characters form a valid ISO `YYYY-MM-DD`
date; blank cells, numeric cells and all other strings yield `None` and
only their rows are dropped while the rest of the sheet loads — except
that an M/D/YYYY-shaped string with out-of-range components raises an
uncaught error that aborts the whole sheet load. -/
theorem normalize_date_characterization :
    (∀ d t, normalizeDate (Cell.datetimeVal d t) = .ok (some d)) ∧
    (∀ d, normalizeDate (Cell.dateVal d) = .ok (some d)) ∧
    (normalizeDate Cell.blank = .ok none) ∧
    (∀ q, normalizeDate (Cell.num q) = .ok none) ∧
    (∀ s m dd y, mdyyyyShape (pyStrip s.toList) = some (m, dd, y) →
       normalizeDate (Cell.str s) =
         (match mkDate y m dd with
          | some d => .ok (some d)
          | none => .error ())) ∧
    (∀ s, mdyyyyShape (pyStrip s.toList) = none →
       normalizeDate (Cell.str s) =
         .ok (fromisoformat (String.mk ((pyStrip s.toList).take 10)))) ∧
    (∀ hdr rows out, loadSheetAsDf (hdr :: rows) = .ok out →
       out.Perm (rows.filterMap (keptRow hdr.length))) ∧
    (∀ hdr rows r, hdr.length ≠ 0 → r ∈ rows →
       normalizeDate ((padRow hdr.length r).headD Cell.blank) = .error () →
       loadSheetAsDf (hdr :: rows) = .error ()) := by
  refine ⟨fun d t => rfl, fun d => rfl, rfl, fun q => rfl, ?_, ?_, ?_, ?_⟩
  · intro s m dd y h
    simp only [normalizeDate, h]
  · intro s h
    simp only [normalizeDate, h]
  · intro hdr rows out h
    exact (load_sheet_ok_perm h).1
  · intro hdr rows r h0 hr herr
    simp only [loadSheetAsDf, if_neg h0,
      normalizeRows_error_of_mem r hr herr]

/-- C3 witness: the amended characterization applied at concrete inputs —
a valid M/D/YYYY string, a plain-garbage string, and a two-row sheet whose
second row has an unparsable date and is the only row dropped. -/
theorem normalize_date_characterization_witness :
    mdyyyyShape (pyStrip ("1/6/2025").toList) = some (1, 6, 2025) ∧
    normalizeDate (Cell.str ("1/6/2025")) = .ok (some ⟨2025, 1, 6⟩) ∧
    mdyyyyShape (pyStrip ("garbage").toList) = none ∧
    normalizeDate (Cell.str ("garbage")) = .ok none ∧
    loadSheetAsDf
        [[Cell.str ("Date"), Cell.str ("Calories")],
         [Cell.dateVal ⟨2025, 1, 6⟩, Cell.num 2000],
         [Cell.str ("garbage"), Cell.num 2100]] =
      .ok [(⟨2025, 1, 6⟩, [Cell.num 2000])] ∧
    List.Perm [((⟨2025, 1, 6⟩ : PyDate), [Cell.num 2000])]
      ([[Cell.dateVal ⟨2025, 1, 6⟩, Cell.num 2000],
        [Cell.str ("garbage"), Cell.num 2100]].filterMap (keptRow 2)) := by
  refine ⟨rfl, ?_, rfl, ?_, rfl, ?_⟩
  · exact (normalize_date_characterization.2.2.2.2.1 "1/6/2025" 1 6 2025 rfl).trans
      (by rfl)
  · exact (normalize_date_characterization.2.2.2.2.2.1 "garbage" rfl).trans (by rfl)
  · exact normalize_date_characterization.2.2.2.2.2.2.1
      [Cell.str ("Date"), Cell.str ("Calories")]
      [[Cell.dateVal ⟨2025, 1, 6⟩, Cell.num 2000],
       [Cell.str ("garbage"), Cell.num 2100]]
      [(⟨2025, 1, 6⟩, [Cell.num 2000])] rfl

-- ---------------------------------------------------------------------------
-- C4
-- ---------------------------------------------------------------------------

/-- C4 counterexample: `_load_sheet_as_df` never deduplicates — a sheet
with two rows carrying the same date loads both, so the loaded table has
a duplicate date. -/
theorem load_sheet_duplicate_dates_cex :
    loadSheetAsDf
        [[Cell.str ("Date"), Cell.str ("Calories")],
         [Cell.dateVal ⟨2025, 1, 6⟩, Cell.num 2000],
         [Cell.dateVal ⟨2025, 1, 6⟩, Cell.num 2100]] =
      .ok [(⟨2025, 1, 6⟩, [Cell.num 2000]), (⟨2025, 1, 6⟩, [Cell.num 2100])] ∧
    ¬ ([(⟨2025, 1, 6⟩, [Cell.num 2000]),
        ((⟨2025, 1, 6⟩ : PyDate), [Cell.num 2100])].map
          (fun pr => pr.1)).Nodup := by
  exact ⟨rfl, by decide⟩

/-- C4 (amended): every successfully loaded table is sorted ascending by
date, every row's date is a pure calendar date obtained by successful date
normalization of a source row, and the loaded dates are pairwise distinct
whenever the normalized source dates are — the loader inherits uniqueness
from the source but does not enforce it. -/
theorem load_sheet_sorted_pure_dates (hdr : List Cell)
    (rows : List (List Cell)) (out : List (PyDate × List Cell))
    (h : loadSheetAsDf (hdr :: rows) = .ok out) :
    (out.map (fun pr => pr.1.toOrdinal)).Sorted (· ≤ ·) ∧
    (∀ pr ∈ out, ∃ r ∈ rows, keptRow hdr.length r = some pr) ∧
    (((rows.filterMap (keptRow hdr.length)).map
        (fun pr => pr.1.toOrdinal)).Nodup →
      (out.map (fun pr => pr.1.toOrdinal)).Nodup) := by
  obtain ⟨hperm, hsorted⟩ := load_sheet_ok_perm h
  refine ⟨?_, ?_, ?_⟩
  · exact List.Pairwise.map _ (fun a b hab => hab) hsorted
  · intro pr hpr
    exact List.mem_filterMap.mp (hperm.mem_iff.mp hpr)
  · intro hnd
    exact ((hperm.map (fun pr => pr.1.toOrdinal)).nodup_iff).mpr hnd

/-- C4 witness: the theorem applied to a concrete two-row sheet (given in
descending date order, loaded in ascending order). -/
theorem load_sheet_sorted_pure_dates_witness :
    (([((⟨2025, 1, 6⟩ : PyDate), [Cell.num 2000]),
       (⟨2025, 1, 7⟩, [Cell.num 2100])].map
        (fun pr => pr.1.toOrdinal)).Sorted (· ≤ ·)) ∧
    (∀ pr ∈ [((⟨2025, 1, 6⟩ : PyDate), [Cell.num 2000]),
             (⟨2025, 1, 7⟩, [Cell.num 2100])],
       ∃ r ∈ [[Cell.dateVal ⟨2025, 1, 7⟩, Cell.num 2100],
              [Cell.dateVal ⟨2025, 1, 6⟩, Cell.num 2000]],
         keptRow 2 r = some pr) := by
  have h := load_sheet_sorted_pure_dates
    [Cell.str ("Date"), Cell.str ("Calories")]
    [[Cell.dateVal ⟨2025, 1, 7⟩, Cell.num 2100],
     [Cell.dateVal ⟨2025, 1, 6⟩, Cell.num 2000]]
    [(⟨2025, 1, 6⟩, [Cell.num 2000]), (⟨2025, 1, 7⟩, [Cell.num 2100])] rfl
  exact ⟨h.1, h.2.1⟩

-- ---------------------------------------------------------------------------
-- macrofactor.py — get_current_targets
-- ---------------------------------------------------------------------------

/-- Lowercased character list of a string (Python `s.lower()`). -/
def lowerStr (s : String) : List Char := s.toList.map Char.toLower

/-- Substring containment on character lists (Python `needle in hay`). -/
def containsSub (needle : List Char) : List Char → Bool
  | [] => needle.isEmpty
  | c :: t => needle.isPrefixOf (c :: t) || containsSub needle t

/-- Case-insensitive containment `c.lower() in col.lower()`. -/
def containsCI (needle col : String) : Bool :=
  containsSub (lowerStr needle) (lowerStr col)

/-- Function `_find_col`: tries the candidate keywords in order and for
each scans the column names in order, returning the first column whose
name contains the keyword case-insensitively. -/
def findCol (cols : List String) : List String → Option String
  | [] => none
  | c :: cs =>
      match cols.find? (fun col => containsCI c col) with
      | some col => some col
      | none => findCol cols cs

/-- Value of the named column in a row (`last[col]`): the cell at the
first index whose column name equals `col`. -/
def lookupCol (cols : List String) (row : List PyFloat) (col : String) :
    PyFloat :=
  match cols.indexOf? col with
  | some i => row.getD i PyFloat.nan
  | none => PyFloat.nan

/-- The numeric-coerced Nutrition Program Settings table as
`get_current_targets` receives it: named data columns over float cells.
(The date column, normalized to the name "date", contains none of the
target keywords and can never be selected by `_find_col`.) -/
structure TargetsDf where
  cols : List String
  rows : List (List PyFloat)
  deriving Repr, DecidableEq

/-- The five nutrition-target values (also the shape of the configured
fallback defaults from `peakform.config`). -/
structure Targets where
  calories : PyFloat
  proteinG : PyFloat
  carbsG : PyFloat
  fatG : PyFloat
  expenditureKcal : PyFloat
  deriving Repr, DecidableEq

/-- One field of `get_current_targets`: if a candidate column exists,
take the last row's value there and keep it only when truthy (`if v:`,
with `_to_float` of an already-float cell the identity); otherwise the
configured default. -/
def pickTarget (df : TargetsDf) (cands : List String) (dflt : PyFloat) :
    PyFloat :=
  match findCol df.cols cands with
  | none => dflt
  | some col =>
      let v := lookupCol df.cols (df.rows.getLastD []) col
      if v.truthy then v else dflt

/-- Method `MacroFactorData.get_current_targets`. The fallback constants
live in `peakform.config`, which is not among the sources at hand, so
they are passed as the explicit `defaults` argument. An empty sheet
yields the defaults wholesale; otherwise each field is picked from the
last (most recent by date) row. -/
def getCurrentTargets (defaults : Targets) (df : TargetsDf) : Targets :=
  if df.rows.isEmpty then defaults
  else
    { calories :=
        pickTarget df [("calorie"), ("kcal"), ("energy")] defaults.calories,
      proteinG := pickTarget df [("protein")] defaults.proteinG,
      carbsG := pickTarget df [("carb")] defaults.carbsG,
      fatG := pickTarget df [("fat")] defaults.fatG,
      expenditureKcal :=
        pickTarget df [("expenditure")] defaults.expenditureKcal }

-- ---------------------------------------------------------------------------
-- C5
-- ---------------------------------------------------------------------------

/-- C5: the current-target lookup consults only the most recent row by
date (the last row of the date-ascending table): over any non-empty
targets table it returns exactly what it returns over the table truncated
to that last row, so no per-day or history-aware lookup of earlier rows
takes place. -/
theorem get_current_targets_last_row_only (defaults : Targets)
    (df : TargetsDf) (h : df.rows ≠ []) :
    getCurrentTargets defaults df =
      getCurrentTargets defaults ⟨df.cols, [df.rows.getLastD []]⟩ := by
  have h1 : df.rows.isEmpty = false := by
    cases hr : df.rows with
    | nil => exact absurd hr h
    | cons a t => rfl
  unfold getCurrentTargets
  rw [h1]
  simp only [List.isEmpty_cons, Bool.false_eq_true, if_false]
  cases hr : df.rows with
  | nil => exact absurd hr h
  | cons a t =>
      unfold pickTarget
      simp [lookupCol, hr]

/-- C5 witness: applied to a concrete two-row table — the stale first row
(protein 150) is invisible; only the last row (protein 180) matters. -/
theorem get_current_targets_last_row_only_witness :
    (⟨[("Protein (g)")], [[PyFloat.val 150], [PyFloat.val 180]]⟩ :
        TargetsDf).rows ≠ [] ∧
    getCurrentTargets
        ⟨PyFloat.val 2500, PyFloat.val 160, PyFloat.val 300,
         PyFloat.val 80, PyFloat.val 2800⟩
        ⟨[("Protein (g)")], [[PyFloat.val 150], [PyFloat.val 180]]⟩ =
      getCurrentTargets
        ⟨PyFloat.val 2500, PyFloat.val 160, PyFloat.val 300,
         PyFloat.val 80, PyFloat.val 2800⟩
        ⟨[("Protein (g)")], [[PyFloat.val 180]]⟩ :=
  ⟨by decide,
   get_current_targets_last_row_only
     ⟨PyFloat.val 2500, PyFloat.val 160, PyFloat.val 300,
      PyFloat.val 80, PyFloat.val 2800⟩
     ⟨[("Protein (g)")], [[PyFloat.val 150], [PyFloat.val 180]]⟩
     (by decide)⟩

-- ---------------------------------------------------------------------------
-- C10
-- ---------------------------------------------------------------------------

/-- C10 counterexample: a missing latest-row value — NaN after numeric
coercion — is truthy in Python, so `if v:` keeps it and the result is
NaN, not the configured fallback (2500 here). -/
theorem get_current_targets_nan_cex :
    (getCurrentTargets
        ⟨PyFloat.val 2500, PyFloat.val 160, PyFloat.val 300,
         PyFloat.val 80, PyFloat.val 2800⟩
        ⟨[("Calories")], [[PyFloat.nan]]⟩).calories = PyFloat.nan ∧
    PyFloat.nan ≠ PyFloat.val 2500 := by
  exact ⟨rfl, by decide⟩

/-- C10 (amended): `get_current_targets` always yields all five fields;
an absent/empty sheet yields the defaults wholesale, a field with no
matching column yields its default, a latest-row value equal to 0 is
falsy and is silently replaced by the default, and any other value —
including NaN, the numeric coercion of a missing or non-numeric cell,
which is truthy — is returned as is. -/
theorem get_current_targets_fallbacks (defaults : Targets)
    (df : TargetsDf) (h : df.rows ≠ []) :
    (∀ dfe : TargetsDf, dfe.rows = [] →
       getCurrentTargets defaults dfe = defaults) ∧
    getCurrentTargets defaults df =
      ⟨pickTarget df [("calorie"), ("kcal"), ("energy")] defaults.calories,
       pickTarget df [("protein")] defaults.proteinG,
       pickTarget df [("carb")] defaults.carbsG,
       pickTarget df [("fat")] defaults.fatG,
       pickTarget df [("expenditure")] defaults.expenditureKcal⟩ ∧
    (∀ cands dflt, findCol df.cols cands = none →
       pickTarget df cands dflt = dflt) ∧
    (∀ cands dflt col, findCol df.cols cands = some col →
       (lookupCol df.cols (df.rows.getLastD []) col = PyFloat.val 0 →
          pickTarget df cands dflt = dflt) ∧
       (lookupCol df.cols (df.rows.getLastD []) col = PyFloat.nan →
          pickTarget df cands dflt = PyFloat.nan) ∧
       (∀ q : Rat, q ≠ 0 →
          lookupCol df.cols (df.rows.getLastD []) col = PyFloat.val q →
          pickTarget df cands dflt = PyFloat.val q)) := by
  have h1 : df.rows.isEmpty = false := by
    cases hr : df.rows with
    | nil => exact absurd hr h
    | cons a t => rfl
  refine ⟨?_, ?_, ?_, ?_⟩
  · intro dfe he
    unfold getCurrentTargets
    rw [he]
    rfl
  · unfold getCurrentTargets
    rw [h1]
    rfl
  · intro cands dflt hf
    unfold pickTarget
    rw [hf]
  · intro cands dflt col hf
    refine ⟨?_, ?_, ?_⟩
    · intro hv
      rw [List.getLastD_eq_getLast?] at hv
      unfold pickTarget
      rw [hf]
      simp [hv, PyFloat.truthy]
    · intro hv
      rw [List.getLastD_eq_getLast?] at hv
      unfold pickTarget
      rw [hf]
      simp [hv, PyFloat.truthy]
    · intro q hq hv
      rw [List.getLastD_eq_getLast?] at hv
      unfold pickTarget
      rw [hf]
      simp [hv, PyFloat.truthy, hq]

/-- C10 witness: the amended theorem applied to a concrete one-row table
exercising the zero branch — a legitimately-zero latest carbs target is
replaced by the default. -/
theorem get_current_targets_fallbacks_witness :
    pickTarget ⟨[("Carbs (g)")], [[PyFloat.val 0]]⟩ [("carb")]
        (PyFloat.val 300) = PyFloat.val 300 := by
  have h := get_current_targets_fallbacks
    ⟨PyFloat.val 2500, PyFloat.val 160, PyFloat.val 300,
     PyFloat.val 80, PyFloat.val 2800⟩
    ⟨[("Carbs (g)")], [[PyFloat.val 0]]⟩ (by decide)
  exact (h.2.2.2 [("carb")] (PyFloat.val 300) ("Carbs (g)") (by decide)).1
    (by decide)

-- ---------------------------------------------------------------------------
-- agent.py — coverage validation
-- ---------------------------------------------------------------------------

/-- One Garmin run activity, restricted to the fields the coverage
validator reads: the activity date (ordinal) and its distance in miles. -/
structure GarminRun where
  date : Int
  distanceMi : PyFloat
  deriving Repr, DecidableEq

/-- Modelled from the spec: the Garmin activity data
(`peakform.parsers.garmin` is not among the sources at hand); per §3 it
is a flat table of logged activities, of which only the run rows are
relevant here. -/
structure GarminData (β : Type) where
  runs : List GarminRun
  rest : β
  deriving Repr, DecidableEq

/-- Modelled from the spec: `runs_in_window` — the run activities whose
date falls inside the analysis window. -/
def GarminData.runsInWindow {β : Type} (g : GarminData β) (ws we : Int) :
    List GarminRun :=
  g.runs.filter (fun r => ws ≤ r.date && r.date ≤ we)

/-- The normalized Calories & Macros table as the validator sees it:
date-ordinal-keyed rows of numeric-coerced cells under named data
columns. (The date column itself, named "date" after loading, contains
neither "calorie" nor "kcal" and can never be picked as the calories
column.) -/
structure CmDf where
  cols : List String
  rows : List (Int × List PyFloat)
  deriving Repr, DecidableEq

/-- Parsed MacroFactor data: the Calories & Macros table plus the
remaining sheets, which the validator never touches and the analyzers
consume opaquely. -/
structure MFData (α : Type) where
  caloriesMacros : CmDf
  rest : α
  deriving Repr, DecidableEq

/-- Rows of the calories table whose date lies in the analysis window
(`cm_df[(cm_df.date >= week_start) & (cm_df.date <= week_end)]`). -/
def inWindowRows (cm : CmDf) (ws we : Int) : List (Int × List PyFloat) :=
  cm.rows.filter (fun r => ws ≤ r.1 && r.1 ≤ we)

/-- First column whose name contains "calorie" or "kcal"
case-insensitively (`next((c for c in columns if ...), None)`). -/
def findCalCol (cols : List String) : Option String :=
  cols.find? (fun c => containsCI ("calorie") c || containsCI ("kcal") c)

/-- Python `sorted(set(dates))`. -/
def sortedDistinct (l : List Int) : List Int :=
  List.insertionSort (· ≤ ·) l.dedup

/-- Largest gap between consecutive entries of a list (0 when fewer than
two entries), as the validator's running-max loop computes it. -/
def maxConsecGap : List Int → Int
  | [] => 0
  | [_] => 0
  | a :: b :: t => max (b - a) (maxConsecGap (b :: t))

/-- The validator's warning strings, abstracted to tagged values carrying
exactly the data each message interpolates. -/
inductive Warning where
  | lowLoggedDays (n : Nat)
  | cmMissing
  | runGap (days : Int)
  | noRuns
  | calorieSpike (kcal : PyFloat) (date : Int)
  | longRun (mi : PyFloat) (date : Int)
  deriving Repr, DecidableEq

/-- Function `_validate_data_coverage`: logged-day count, run-gap
detection, and — only when both the calories table and the in-window runs
are non-empty — single-day calorie spikes (> 3000 kcal) and long runs
(> 15 mi). -/
def validateCoverage {α β : Type} (mf : MFData α) (g : GarminData β)
    (ws we : Int) : List Warning :=
  let cm := mf.caloriesMacros
  let w1 : List Warning :=
    if cm.rows.isEmpty then [Warning.cmMissing]
    else
      let loggedDays := (inWindowRows cm ws we).length
      if loggedDays < 5 then [Warning.lowLoggedDays loggedDays] else []
  let runs := g.runsInWindow ws we
  let w2 : List Warning :=
    if runs.isEmpty then [Warning.noRuns]
    else
      let mg := maxConsecGap (sortedDistinct (runs.map (fun r => r.date)))
      if 2 < mg then [Warning.runGap mg] else []
  let w3 : List Warning :=
    if !cm.rows.isEmpty && !runs.isEmpty then
      (match findCalCol cm.cols with
       | none => []
       | some c =>
           ((inWindowRows cm ws we).filter
               (fun r => (lookupCol cm.cols r.2 c).gtConst 3000)).map
             (fun r => Warning.calorieSpike (lookupCol cm.cols r.2 c) r.1)) ++
      (runs.filter (fun r => r.distanceMi.gtConst 15)).map
        (fun r => Warning.longRun r.distanceMi r.date)
    else []
  w1 ++ w2 ++ w3

-- ---------------------------------------------------------------------------
-- C6
-- ---------------------------------------------------------------------------

/-- C6 counterexample: with a 3400 kcal day in-window but no run activity
in the window, the anomaly block is skipped (`if not cm_df.empty and not
runs.empty`), so no calorie-spike warning is emitted — only the
low-logged-days and no-runs warnings appear. 739257..739263 is the
Mon–Sun week of 2025-01-06. -/
theorem validate_coverage_no_runs_no_spike_cex :
    validateCoverage
        (⟨⟨[("Calories")],
           [(739257, [PyFloat.val 2000]), (739258, [PyFloat.val 3400]),
            (739259, [PyFloat.val 2100])]⟩, ()⟩ : MFData Unit)
        (⟨[], ()⟩ : GarminData Unit) 739257 739263 =
      [Warning.lowLoggedDays 3, Warning.noRuns] ∧
    (PyFloat.val 3400).gtConst 3000 = true ∧
    Warning.calorieSpike (PyFloat.val 3400) 739258 ∉
      validateCoverage
        (⟨⟨[("Calories")],
           [(739257, [PyFloat.val 2000]), (739258, [PyFloat.val 3400]),
            (739259, [PyFloat.val 2100])]⟩, ()⟩ : MFData Unit)
        (⟨[], ()⟩ : GarminData Unit) 739257 739263 := by
  refine ⟨by decide, by decide, by decide⟩

/-- C6 (amended): provided the calories table is non-empty and at least
one run activity lies in the analysis window, every in-window day whose
calories exceed the fixed 3000 kcal threshold yields a calorie-spike
warning for that date, and a window with fewer than 5 logged days yields
a low-logged-days warning — so the 3-of-7-days scenario with one 3400
kcal day emits both. -/
theorem validate_coverage_spike_and_low_days {α β : Type}
    (mf : MFData α) (g : GarminData β) (ws we : Int)
    (hcm : mf.caloriesMacros.rows.isEmpty = false)
    (hruns : (g.runsInWindow ws we).isEmpty = false) :
    ((inWindowRows mf.caloriesMacros ws we).length < 5 →
       Warning.lowLoggedDays (inWindowRows mf.caloriesMacros ws we).length ∈
         validateCoverage mf g ws we) ∧
    (∀ c r, findCalCol mf.caloriesMacros.cols = some c →
       r ∈ inWindowRows mf.caloriesMacros ws we →
       (lookupCol mf.caloriesMacros.cols r.2 c).gtConst 3000 = true →
       Warning.calorieSpike (lookupCol mf.caloriesMacros.cols r.2 c) r.1 ∈
         validateCoverage mf g ws we) := by
  constructor
  · intro hlt
    simp only [validateCoverage]
    rw [hcm]
    simp [hlt]
  · intro c r hc hr hgt
    simp only [validateCoverage]
    rw [hcm, hruns, hc]
    simp only [Bool.not_false, Bool.and_self, if_true, Bool.false_eq_true,
      if_false, List.mem_append]
    right; left
    exact List.mem_map.mpr ⟨r, List.mem_filter.mpr ⟨hr, hgt⟩, rfl⟩

/-- C6 witness: the 3-of-7-days scenario with a 3400 kcal day and one
in-window run — both the low-logged-days warning and the calorie-spike
warning are in the validator's output. -/
theorem validate_coverage_spike_and_low_days_witness :
    Warning.lowLoggedDays 3 ∈
      validateCoverage
        (⟨⟨[("Calories")],
           [(739257, [PyFloat.val 2000]), (739258, [PyFloat.val 3400]),
            (739259, [PyFloat.val 2100])]⟩, ()⟩ : MFData Unit)
        (⟨[⟨739259, PyFloat.val 5⟩], ()⟩ : GarminData Unit) 739257 739263 ∧
    Warning.calorieSpike (PyFloat.val 3400) 739258 ∈
      validateCoverage
        (⟨⟨[("Calories")],
           [(739257, [PyFloat.val 2000]), (739258, [PyFloat.val 3400]),
            (739259, [PyFloat.val 2100])]⟩, ()⟩ : MFData Unit)
        (⟨[⟨739259, PyFloat.val 5⟩], ()⟩ : GarminData Unit) 739257 739263 := by
  have h := validate_coverage_spike_and_low_days
    (⟨⟨[("Calories")],
       [(739257, [PyFloat.val 2000]), (739258, [PyFloat.val 3400]),
        (739259, [PyFloat.val 2100])]⟩, ()⟩ : MFData Unit)
    (⟨[⟨739259, PyFloat.val 5⟩], ()⟩ : GarminData Unit) 739257 739263
    (by decide) (by decide)
  exact ⟨h.1 (by decide),
    by
      have h2 := h.2 ("Calories") (739258, [PyFloat.val 3400]) (by decide)
        (by decide) (by decide)
      exact h2⟩

-- ---------------------------------------------------------------------------
-- agent.py — run_full orchestration
-- ---------------------------------------------------------------------------

/-- Modelled from the spec: the collaborators `run_full` calls whose code
is not among the sources at hand — the two loaders
(`macrofactor.load` beyond the sheets modelled above, and
`peakform.parsers.garmin.load`), the four analyzers with their accessor
fields, the signal detector and the report formatter (whose input types
are the absent analyzer classes). Per §5 of the spec they are
deterministic pure functions of their arguments, so they are abstract
function fields threaded exactly as `run_full` threads them. -/
structure Pipeline (α β Rn St Nu Bc Sig : Type) where
  mfLoad : Bytes → MFData α
  gLoad : Bytes → GarminData β
  runningAnalyze : GarminData β → Int → Int → Rn
  currentTotalMiles : Rn → PyFloat
  strengthAnalyze : MFData α → Int → Int → St
  nutritionAnalyze : MFData α → Int → Int → PyFloat → Nu
  avgDailyDeficit : Nu → PyFloat
  bodyCompAnalyze : MFData α → Int → Int → PyFloat → Bc
  signalsDetect : Rn → St → Nu → Bc → List Sig
  formatBuild : Rn → St → Nu → Bc → List Sig → String
  renderWarning : Warning → String

/-- The analyzer block of `run_full` with its cross-analyzer dataflow:
running feeds `total_miles` to nutrition, nutrition feeds
`avg_daily_deficit` to body composition, and the signal detector reads
all four outputs. The coverage validator appears nowhere here. -/
def coreOutputs {α β Rn St Nu Bc Sig : Type}
    (p : Pipeline α β Rn St Nu Bc Sig) (mf : MFData α) (g : GarminData β)
    (ws we : Int) : Rn × St × Nu × Bc × List Sig :=
  let rn := p.runningAnalyze g ws we
  let st := p.strengthAnalyze mf ws we
  let nu := p.nutritionAnalyze mf ws we (p.currentTotalMiles rn)
  let bc := p.bodyCompAnalyze mf ws we (p.avgDailyDeficit nu)
  (rn, st, nu, bc, p.signalsDetect rn st nu bc)

/-- The formatted report before any warning block
(`formatter.build(...)` over the analyzer outputs and signals). -/
def baseReport {α β Rn St Nu Bc Sig : Type}
    (p : Pipeline α β Rn St Nu Bc Sig) (mf : MFData α) (g : GarminData β)
    (ws we : Int) : String :=
  match coreOutputs p mf g ws we with
  | (rn, st, nu, bc, sigs) => p.formatBuild rn st nu bc sigs

/-- The warning block `run_full` prepends when any coverage warnings
exist; with no warnings the report is unchanged. -/
def prependWarnings (render : Warning → String) (warns : List Warning)
    (report : String) : String :=
  if warns.isEmpty then report
  else
    "---\n**Data Coverage Warnings:**\n" ++
      String.intercalate "\n" (warns.map (fun w => "> ⚠️ " ++ render w)) ++
      "\n\n---\n\n" ++ report

/-- Everything produced by a full analysis run (`RunResult`). -/
structure RunResult (α β : Type) where
  reportMd : String
  mfData : MFData α
  garminData : GarminData β
  weekStart : Int
  weekEnd : Int
  deriving Repr, DecidableEq

/-- Function `run_full`, parameterized over the coverage validator (the
code instantiates it with `_validate_data_coverage`): parse the week
bounds, load both sources, compute the coverage warnings, run the
analyzers, build the report and prepend the warning block. Verbose
logging writes only to stderr and is omitted. -/
def runFullWith {α β Rn St Nu Bc Sig : Type}
    (validator : MFData α → GarminData β → Int → Int → List Warning)
    (p : Pipeline α β Rn St Nu Bc Sig) (mfBytes gBytes : Bytes)
    (week : Option String) (today : Int) :
    Except String (RunResult α β) :=
  match parseWeekArg week today with
  | .error e => .error e
  | .ok (ws, we) =>
      let mf := p.mfLoad mfBytes
      let g := p.gLoad gBytes
      let warns := validator mf g ws we
      let report :=
        prependWarnings p.renderWarning warns (baseReport p mf g ws we)
      .ok ⟨report, mf, g, ws, we⟩

/-- Function `run_full` proper: `runFullWith` at the concrete coverage
validator. -/
def runFull {α β Rn St Nu Bc Sig : Type}
    (p : Pipeline α β Rn St Nu Bc Sig) (mfBytes gBytes : Bytes)
    (week : Option String) (today : Int) :
    Except String (RunResult α β) :=
  runFullWith (fun mf g ws we => validateCoverage mf g ws we)
    p mfBytes gBytes week today

/-- The `RunResult` a successful run produces for given week bounds. -/
def resultOf {α β Rn St Nu Bc Sig : Type}
    (validator : MFData α → GarminData β → Int → Int → List Warning)
    (p : Pipeline α β Rn St Nu Bc Sig) (mfBytes gBytes : Bytes)
    (ws we : Int) : RunResult α β :=
  ⟨prependWarnings p.renderWarning
      (validator (p.mfLoad mfBytes) (p.gLoad gBytes) ws we)
      (baseReport p (p.mfLoad mfBytes) (p.gLoad gBytes) ws we),
   p.mfLoad mfBytes, p.gLoad gBytes, ws, we⟩

lemma runFullWith_parse_ok {α β Rn St Nu Bc Sig : Type}
    (validator : MFData α → GarminData β → Int → Int → List Warning)
    (p : Pipeline α β Rn St Nu Bc Sig) (mfBytes gBytes : Bytes)
    (week : Option String) (today : Int) (ws we : Int)
    (h : parseWeekArg week today = .ok (ws, we)) :
    runFullWith validator p mfBytes gBytes week today =
      .ok (resultOf validator p mfBytes gBytes ws we) := by
  unfold runFullWith
  rw [h]
  rfl

lemma runFullWith_ok_inv {α β Rn St Nu Bc Sig : Type}
    {validator : MFData α → GarminData β → Int → Int → List Warning}
    {p : Pipeline α β Rn St Nu Bc Sig} {mfBytes gBytes : Bytes}
    {week : Option String} {today : Int} {r : RunResult α β}
    (h : runFullWith validator p mfBytes gBytes week today = .ok r) :
    parseWeekArg week today = .ok (r.weekStart, r.weekEnd) ∧
    r = resultOf validator p mfBytes gBytes r.weekStart r.weekEnd := by
  unfold runFullWith at h
  cases hpw : parseWeekArg week today with
  | error e => rw [hpw] at h; cases h
  | ok wb =>
      obtain ⟨ws, we⟩ := wb
      rw [hpw] at h
      simp only [Except.ok.injEq] at h
      constructor
      · rw [← h]
      · rw [← h]; rfl

lemma weekday_sub_weekday (o : Int) : weekday (o - weekday o) = 0 := by
  unfold weekday
  have : (o - (o - 1) % 7) - 1 = (o - 1) - (o - 1) % 7 := by ring
  rw [this, Int.sub_emod, Int.emod_emod_of_dvd]
  · simp
  · exact dvd_refl 7

lemma week_bounds_of_monday {m : Int} (h : weekday m = 0) :
    weekBoundsForDate m = (m, m + 6) := by
  unfold weekBoundsForDate
  rw [h]
  simp

lemma parse_week_arg_ok_shape {week : Option String} {today ws we : Int}
    (h : parseWeekArg week today = .ok (ws, we)) :
    weekday ws = 0 ∧ we = ws + 6 := by
  cases week with
  | none =>
      simp only [parseWeekArg, currentWeekBounds, Except.ok.injEq,
        Prod.mk.injEq] at h
      obtain ⟨h1, h2⟩ := h
      subst h1; subst h2
      exact ⟨weekday_sub_weekday today, rfl⟩
  | some s =>
      by_cases hs : s = ""
      · subst hs
        rw [show parseWeekArg (some ("")) today =
            .ok (currentWeekBounds today) from rfl] at h
        simp only [currentWeekBounds, Except.ok.injEq, Prod.mk.injEq] at h
        obtain ⟨h1, h2⟩ := h
        subst h1; subst h2
        exact ⟨weekday_sub_weekday today, rfl⟩
      · simp only [parseWeekArg, if_neg hs] at h
        cases hf : fromisoformat s with
        | none => rw [hf] at h; cases h
        | some d =>
            rw [hf] at h
            simp only [weekBoundsForDate, Except.ok.injEq,
              Prod.mk.injEq] at h
            obtain ⟨h1, h2⟩ := h
            subst h1; subst h2
            exact ⟨weekday_sub_weekday d.toOrdinal, rfl⟩

-- ---------------------------------------------------------------------------
-- C7
-- ---------------------------------------------------------------------------

/-- C7: coverage warnings are advisory — for every validator whatsoever
(warnings or none), the run succeeds exactly when week parsing succeeds
(warnings never abort); the result's analyzer outputs, signal list and
base report are computed by `coreOutputs`/`baseReport` without any
reference to the validator; and the warnings appear only via the block
prepended to the report text. `run_full` is the validator instantiated at
`_validate_data_coverage`. -/
theorem run_full_warnings_advisory {α β Rn St Nu Bc Sig : Type}
    (validator : MFData α → GarminData β → Int → Int → List Warning)
    (p : Pipeline α β Rn St Nu Bc Sig) (mfBytes gBytes : Bytes)
    (week : Option String) (today : Int) :
    ((∃ r, runFullWith validator p mfBytes gBytes week today = .ok r) ↔
       (∃ wb, parseWeekArg week today = .ok wb)) ∧
    (∀ ws we, parseWeekArg week today = .ok (ws, we) →
       runFullWith validator p mfBytes gBytes week today =
         .ok ⟨prependWarnings p.renderWarning
                (validator (p.mfLoad mfBytes) (p.gLoad gBytes) ws we)
                (baseReport p (p.mfLoad mfBytes) (p.gLoad gBytes) ws we),
              p.mfLoad mfBytes, p.gLoad gBytes, ws, we⟩) ∧
    runFull p mfBytes gBytes week today =
      runFullWith (fun mf g ws we => validateCoverage mf g ws we)
        p mfBytes gBytes week today := by
  refine ⟨⟨?_, ?_⟩, ?_, rfl⟩
  · rintro ⟨r, hr⟩
    exact ⟨_, (runFullWith_ok_inv hr).1⟩
  · rintro ⟨⟨ws, we⟩, hwb⟩
    exact ⟨_, runFullWith_parse_ok validator p mfBytes gBytes week today
      ws we hwb⟩
  · intro ws we hwb
    exact runFullWith_parse_ok validator p mfBytes gBytes week today ws we hwb

/-- A minimal concrete pipeline used to evaluate the orchestration
theorems on closed inputs. -/
def probePipeline : Pipeline Unit Unit Unit Unit Unit Unit Unit :=
  { mfLoad := fun _ => ⟨⟨[], []⟩, ()⟩,
    gLoad := fun _ => ⟨[], ()⟩,
    runningAnalyze := fun _ _ _ => (),
    currentTotalMiles := fun _ => PyFloat.val 0,
    strengthAnalyze := fun _ _ _ => (),
    nutritionAnalyze := fun _ _ _ _ => (),
    avgDailyDeficit := fun _ => PyFloat.val 0,
    bodyCompAnalyze := fun _ _ _ _ => (),
    signalsDetect := fun _ _ _ _ => [],
    formatBuild := fun _ _ _ _ _ => ("report"),
    renderWarning := fun _ => ("warn") }

/-- C7 witness: the theorem applied at a concrete validator that always
warns, on a concrete week (the Mon–Sun window 739257–739263 of
2025-01-06). -/
theorem run_full_warnings_advisory_witness :
    runFullWith (fun _ _ _ _ => [Warning.noRuns]) probePipeline [] []
        (some ("2025-01-06")) 0 =
      .ok ⟨prependWarnings probePipeline.renderWarning [Warning.noRuns]
             (baseReport probePipeline (probePipeline.mfLoad [])
               (probePipeline.gLoad []) 739257 739263),
           probePipeline.mfLoad [], probePipeline.gLoad [],
           739257, 739263⟩ := by
  have h := run_full_warnings_advisory (fun _ _ _ _ => [Warning.noRuns])
    probePipeline [] [] (some ("2025-01-06")) 0
  exact h.2.1 739257 739263 (by rfl)

-- ---------------------------------------------------------------------------
-- C8
-- ---------------------------------------------------------------------------

/-- C8: with an explicit non-empty reference date string the pipeline has
no hidden dependence on wall-clock time — two runs under different
current dates coincide — and on byte-identical inputs the run is a pure
function, so repeated runs produce identical results. -/
theorem run_full_explicit_date_deterministic {α β Rn St Nu Bc Sig : Type}
    (p : Pipeline α β Rn St Nu Bc Sig) (mfBytes gBytes : Bytes)
    (s : String) (hs : s ≠ "") (t1 t2 : Int) :
    runFull p mfBytes gBytes (some s) t1 =
      runFull p mfBytes gBytes (some s) t2 ∧
    (∀ mfBytes2 gBytes2, mfBytes2 = mfBytes → gBytes2 = gBytes →
       runFull p mfBytes2 gBytes2 (some s) t1 =
         runFull p mfBytes gBytes (some s) t1) := by
  constructor
  · have h1 : parseWeekArg (some s) t1 = parseWeekArg (some s) t2 := by
      simp [parseWeekArg, if_neg hs]
    unfold runFull runFullWith
    rw [h1]
  · intro a b ha hb
    rw [ha, hb]

/-- C8 witness: the theorem applied at a concrete pipeline, byte strings
and explicit date, under two different current dates. -/
theorem run_full_explicit_date_deterministic_witness :
    runFull probePipeline [7] [9] (some ("2025-01-06")) 0 =
      runFull probePipeline [7] [9] (some ("2025-01-06")) 12345 :=
  (run_full_explicit_date_deterministic probePipeline [7] [9]
    "2025-01-06" (by decide) 0 12345).1

-- ---------------------------------------------------------------------------
-- persistence.py — upload storage and re-running
-- ---------------------------------------------------------------------------

/-- A persisted key→bytes store (the storage backend behind
`write_bytes`/`read_bytes`); later writes shadow earlier ones. -/
def Store := List (String × Bytes)

/-- Backend `write_bytes`. -/
def writeBytes (st : Store) (key : String) (data : Bytes) : Store :=
  (key, data) :: st

/-- Backend `read_bytes`: `None` when the key was never written. -/
def readBytes (st : Store) (key : String) : Option Bytes :=
  match st.find? (fun kv => kv.1 == key) with
  | some kv => some kv.2
  | none => none

/-- Storage key `_MF_UPLOAD`. -/
def mfUploadKey : String := "uploads/macrofactor.xlsx"

/-- Storage key `_GARMIN_UPLOAD`. -/
def garminUploadKey : String := "uploads/garmin.csv"

/-- Function `save_uploads`: write both raw upload byte strings to the
backend. -/
def saveUploads (st : Store) (mfBytes gBytes : Bytes) : Store :=
  writeBytes (writeBytes st mfUploadKey mfBytes) garminUploadKey gBytes

/-- Function `_rerun_from_uploads`: read both saved uploads back (`None`
when either is absent), write them to a temp dir, and re-run `run_full`
with the saved week string; any raised error is caught and becomes
`None`. The week string is non-empty in every success path, so the
current date passed to the model is irrelevant (cf. C8) and fixed at 0. -/
def rerunFromUploads {α β Rn St Nu Bc Sig : Type}
    (p : Pipeline α β Rn St Nu Bc Sig) (st : Store)
    (weekStartIso : String) : Option (RunResult α β) :=
  match readBytes st mfUploadKey, readBytes st garminUploadKey with
  | some mfB, some gB =>
      match runFull p mfB gB (some weekStartIso) 0 with
      | .ok r => some r
      | .error _ => none
  | _, _ => none

-- ---------------------------------------------------------------------------
-- C9
-- ---------------------------------------------------------------------------

/-- C9: persistence round trip — after `save_uploads`, both uploads read
back byte-identical, and re-running the pipeline with any week string
that parses to the original window's Monday (as the saved ISO
`week_start` does) resolves exactly the original Monday–Sunday window
and returns a result identical to the original run: same report, same
loaded data, same window. -/
theorem rerun_from_uploads_round_trip {α β Rn St Nu Bc Sig : Type}
    (p : Pipeline α β Rn St Nu Bc Sig) (st : Store)
    (mfBytes gBytes : Bytes) (week : Option String) (today : Int)
    (r : RunResult α β)
    (hrun : runFull p mfBytes gBytes week today = .ok r)
    (s2 : String) (d2 : PyDate)
    (hparse : fromisoformat s2 = some d2)
    (hmon : d2.toOrdinal = r.weekStart) :
    readBytes (saveUploads st mfBytes gBytes) mfUploadKey = some mfBytes ∧
    readBytes (saveUploads st mfBytes gBytes) garminUploadKey =
      some gBytes ∧
    rerunFromUploads p (saveUploads st mfBytes gBytes) s2 = some r := by
  have hmf : readBytes (saveUploads st mfBytes gBytes) mfUploadKey =
      some mfBytes := by
    simp [readBytes, saveUploads, writeBytes, List.find?, mfUploadKey,
      garminUploadKey]
  have hg : readBytes (saveUploads st mfBytes gBytes) garminUploadKey =
      some gBytes := by
    simp [readBytes, saveUploads, writeBytes, List.find?]
  refine ⟨hmf, hg, ?_⟩
  obtain ⟨hpw, hres⟩ := runFullWith_ok_inv hrun
  obtain ⟨hmonday, hspan⟩ := parse_week_arg_ok_shape hpw
  have hs2 : s2 ≠ "" := by
    intro hempty
    rw [hempty] at hparse
    cases hparse
  have hpw2 : parseWeekArg (some s2) 0 = .ok (r.weekStart, r.weekEnd) := by
    have : parseWeekArg (some s2) 0 =
        .ok (weekBoundsForDate d2.toOrdinal) := by
      simp [parseWeekArg, if_neg hs2, hparse]
    rw [this, hmon, week_bounds_of_monday hmonday, hspan]
  have hrun2 : runFull p mfBytes gBytes (some s2) 0 = .ok r := by
    unfold runFull
    rw [runFullWith_parse_ok _ p mfBytes gBytes (some s2) 0
      r.weekStart r.weekEnd hpw2]
    rw [← hres]
  unfold rerunFromUploads
  rw [hmf, hg]
  simp only [hrun2]

/-- C9 witness: a concrete round trip — save two byte strings, re-run
with the original Monday's ISO string, and get back exactly the original
run's result for the 2025-01-06 week. -/
theorem rerun_from_uploads_round_trip_witness :
    rerunFromUploads probePipeline (saveUploads [] [7] [9])
        ("2025-01-06") =
      some (resultOf (fun mf g ws we => validateCoverage mf g ws we)
        probePipeline [7] [9] 739257 739263) := by
  have h := rerun_from_uploads_round_trip probePipeline [] [7] [9]
    (some ("2025-01-06")) 0
    (resultOf (fun mf g ws we => validateCoverage mf g ws we)
      probePipeline [7] [9] 739257 739263)
    (by rfl) "2025-01-06" ⟨2025, 1, 6⟩ (by rfl) (by rfl)
  exact h.2.2

end PeakForm
